import Mathlib

/-!
Verification of `nevergrad/common/decorators.py` (class `Registry`).

The Python class is a `dict` subclass mapping names to registered objects,
with a side mapping `_information` from names to metadata dicts.  We embed
it as a structure holding two insertion-ordered association lists, and each
method as a state-passing function.  Python in-place mutation with
exceptions is modelled by returning the post-state together with an
optional error: an operation that raises midway still returns the mutated
state, exactly as the Python object would remain mutated.
-/

set_option autoImplicit false

namespace Nevergrad

/-- A Python object as far as name derivation is concerned: it may declare a
name attribute, it always has a class name, and `objId` models object
identity so that two distinct instances of one class are distinguishable. -/
structure Obj where
  declaredName : Option String
  className : String
  objId : Nat
deriving DecidableEq, Repr

/-- A Python value passed as the `info` argument or stored inside a metadata
dict.  Only the dict / non-dict distinction matters to the code
(`isinstance(info, dict)`), so values are kept flat. -/
inductive PyVal where
  | int : Int → PyVal
  | str : String → PyVal
deriving DecidableEq, Repr

/-- A metadata dict: the `info` mappings stored in `_information`. -/
abbrev PyDict := List (String × PyVal)

/-- The `info` argument of `register_name`: either a dict or some other
value (which fails the `isinstance(info, dict)` check). -/
inductive InfoArg where
  | dict : PyDict → InfoArg
  | nonDict : PyVal → InfoArg
deriving DecidableEq, Repr

/-- Errors the Python methods can raise: the name-collision `RuntimeError`,
the failed `assert isinstance(info, dict)`, and the not-registered
`ValueError` of `get_info`. -/
inductive Err where
  | nameCollision : String → Err
  | assertionError : Err
  | notRegistered : String → Err
deriving DecidableEq, Repr

/-- Membership test of a Python dict modelled as an association list. -/
def assocHas {α : Type} (l : List (String × α)) (k : String) : Bool :=
  l.any (fun p => p.1 == k)

/-- Lookup in a Python dict modelled as an association list. -/
def assocGet {α : Type} (l : List (String × α)) (k : String) : Option α :=
  (l.find? (fun p => p.1 == k)).map (·.2)

/-- Python `d[k] = v`: update in place if the key is present, else append
(dicts are insertion-ordered). -/
def assocSet {α : Type} (l : List (String × α)) (k : String) (v : α) :
    List (String × α) :=
  if assocHas l k then l.map (fun p => if p.1 == k then (k, v) else p)
  else l ++ [(k, v)]

/-- Python `del d[k]`: remove the key, keeping the order of the rest. -/
def assocDel {α : Type} (l : List (String × α)) (k : String) :
    List (String × α) :=
  l.filter (fun p => !(p.1 == k))

/-- State of a `Registry` instance: the dict contents inherited from
`dict` (name to object) and the `_information` side mapping. -/
structure Registry where
  entries : List (String × Obj)
  information : List (String × PyDict)
deriving DecidableEq, Repr

/-- `Registry()` starts empty. -/
def Registry.empty : Registry := ⟨[], []⟩

/-- Python `name in self` on the inherited dict. -/
def Registry.contains (r : Registry) (name : String) : Bool :=
  assocHas r.entries name

/-- `register_name(name, obj, info=None)`: raise on collision; otherwise
`self[name] = obj`, then, if `info` was given, `assert isinstance(info,
dict)` and store it in `_information[name]`.  The assignment to `self`
precedes the assert, so a failed assert leaves the object registered. -/
def Registry.register_name (r : Registry) (name : String) (obj : Obj)
    (info : Option InfoArg) : Registry × Option Err :=
  if r.contains name then (r, some (Err.nameCollision name))
  else
    let r1 : Registry := { r with entries := assocSet r.entries name obj }
    match info with
    | none => (r1, none)
    | some (InfoArg.dict d) =>
        ({ r1 with information := assocSet r1.information name d }, none)
    | some (InfoArg.nonDict _) => (r1, some Err.assertionError)

/-- Name derivation of `register`: `obj.__name__` if the attribute exists,
else `obj.__class__.__name__`. -/
def derivedName (obj : Obj) : String :=
  obj.declaredName.getD obj.className

/-- `register(obj, info=None)`: derive the name, delegate to
`register_name`, and return `obj` on success (an exception in
`register_name` propagates, with the state as `register_name` left it). -/
def Registry.register (r : Registry) (obj : Obj) (info : Option InfoArg) :
    Registry × Except Err Obj :=
  match r.register_name (derivedName obj) obj info with
  | (r1, none) => (r1, Except.ok obj)
  | (r1, some e) => (r1, Except.error e)

/-- `unregister(name)`: `if name in self: del self[name]`.  Never raises. -/
def Registry.unregister (r : Registry) (name : String) :
    Registry × Option Err :=
  if r.contains name then
    ({ r with entries := assocDel r.entries name }, none)
  else (r, none)

/-- `register_with_info(**info)`: `functools.partial(self.register,
info=info)` — applying the returned function to an object calls `register`
on the registry's state at application time with the keyword dict bound. -/
def Registry.register_with_info (info : PyDict) :
    Obj → Registry → Registry × Except Err Obj :=
  fun obj r => r.register obj (some (InfoArg.dict info))

/-- `get_info(name)`: `ValueError` if the name is not registered, else
`self._information.setdefault(name, {})` — return the stored dict, storing
and returning a fresh empty dict if none was present. -/
def Registry.get_info (r : Registry) (name : String) :
    Registry × Except Err PyDict :=
  if r.contains name then
    match assocGet r.information name with
    | some d => (r, Except.ok d)
    | none =>
        ({ r with information := assocSet r.information name [] },
         Except.ok [])
  else (r, Except.error (Err.notRegistered name))

/-! Helper lemmas about the association-list model of Python dicts. -/

theorem assocHas_of_assocGet_some {α : Type} {l : List (String × α)}
    {k : String} {v : α} (h : assocGet l k = some v) : assocHas l k = true := by
  unfold assocGet at h
  cases hf : List.find? (fun p => p.1 == k) l with
  | none => rw [hf] at h; simp at h
  | some p =>
      have hmem := List.mem_of_find?_eq_some hf
      have hpred := List.find?_some hf
      exact List.any_eq_true.mpr ⟨p, hmem, hpred⟩

theorem assocGet_mapSet {α : Type} (l : List (String × α)) (k : String)
    (v : α) (h : assocHas l k = true) :
    assocGet (l.map (fun p => if p.1 == k then (k, v) else p)) k = some v := by
  induction l with
  | nil => simp [assocHas] at h
  | cons p t ih =>
      by_cases hp : p.1 == k
      · simp [assocGet, List.find?, hp]
      · have ht : assocHas t k = true := by
          simp only [assocHas, List.any_cons, hp, Bool.false_or] at h
          exact h
        have := ih ht
        simpa [assocGet, List.find?, hp] using this

theorem assocGet_append_single {α : Type} (l : List (String × α))
    (k : String) (v : α) (h : assocHas l k = false) :
    assocGet (l ++ [(k, v)]) k = some v := by
  induction l with
  | nil => simp [assocGet, List.find?]
  | cons p t ih =>
      simp only [assocHas, List.any_cons, Bool.or_eq_false_iff] at h
      have := ih h.2
      simpa [assocGet, List.find?, h.1] using this

theorem assocGet_assocSet_self {α : Type} (l : List (String × α))
    (k : String) (v : α) : assocGet (assocSet l k v) k = some v := by
  unfold assocSet
  by_cases h : assocHas l k
  · rw [if_pos h]; exact assocGet_mapSet l k v h
  · rw [if_neg h]
    exact assocGet_append_single l k v (by simpa using h)

theorem assocHas_assocSet_self {α : Type} (l : List (String × α))
    (k : String) (v : α) : assocHas (assocSet l k v) k = true :=
  assocHas_of_assocGet_some (assocGet_assocSet_self l k v)

theorem assocHas_assocDel_self {α : Type} (l : List (String × α))
    (k : String) : assocHas (assocDel l k) k = false := by
  induction l with
  | nil => rfl
  | cons p t ih =>
      by_cases hp : p.1 == k
      · simp only [assocDel, List.filter_cons, hp, Bool.not_true, if_neg,
          Bool.false_eq_true, not_false_eq_true]
        exact ih
      · simp only [assocDel, List.filter_cons, hp] at ih ⊢
        simp only [Bool.not_false, if_pos]
        simp [assocHas, hp, ih]

/-! Concrete sample data for witnesses and counterexamples. -/

/-- An instance of class `Cls` without a declared `__name__` attribute. -/
def oA : Obj := ⟨none, "Cls", 0⟩

/-- A second, distinct instance of the same class `Cls`. -/
def oB : Obj := ⟨none, "Cls", 1⟩

/-- A function-like object declaring `__name__ = "f"`. -/
def oNamed : Obj := ⟨some "f", "function", 2⟩

/-- A registry already holding `oA` under the name `"foo"`, no metadata. -/
def r0 : Registry := ⟨[("foo", oA)], []⟩

/-- Claim C1: for every object `o` whose derived name (its declared
`__name__` if present, otherwise its class name) is not yet taken,
`register(o)` stores `o` under that name — a subsequent lookup of the name
in the entries yields `o` — and returns `o` itself unchanged. -/
theorem C1_register_stores_and_returns (r : Registry) (o : Obj)
    (h : r.contains (derivedName o) = false) :
    (r.register o none).2 = Except.ok o ∧
    assocGet (r.register o none).1.entries (derivedName o) = some o := by
  simp [Registry.register, Registry.register_name, h, assocGet_assocSet_self]

/-- Witness for C1: registering the named function object in an empty
registry stores it under `"f"` and returns it. -/
theorem C1_witness :
    Registry.empty.contains (derivedName oNamed) = false ∧
    ((Registry.empty.register oNamed none).2 = Except.ok oNamed ∧
     assocGet (Registry.empty.register oNamed none).1.entries
       (derivedName oNamed) = some oNamed) :=
  ⟨by decide, C1_register_stores_and_returns Registry.empty oNamed (by decide)⟩

/-- Claim C2: when name `n` is already present in the entries (holding
`o1`), `register_name(n, o2, info)` raises the name-collision error, leaves
the registry completely unchanged (so `o2` is never stored), and the first
object `o1` remains retrievable under `n`. -/
theorem C2_collision_keeps_first (r : Registry) (n : String)
    (o1 o2 : Obj) (info : Option InfoArg)
    (h : assocGet r.entries n = some o1) :
    r.register_name n o2 info = (r, some (Err.nameCollision n)) ∧
    assocGet (r.register_name n o2 info).1.entries n = some o1 := by
  have hc : r.contains n = true := assocHas_of_assocGet_some h
  refine ⟨?_, ?_⟩
  · simp [Registry.register_name, hc]
  · simp [Registry.register_name, hc, h]

/-- Witness for C2: re-registering name `"foo"` (held by `oA`) with `oB`
collides and keeps `oA`. -/
theorem C2_witness :
    assocGet r0.entries "foo" = some oA ∧
    (r0.register_name "foo" oB none = (r0, some (Err.nameCollision "foo")) ∧
     assocGet (r0.register_name "foo" oB none).1.entries "foo" = some oA) :=
  ⟨by decide, C2_collision_keeps_first r0 "foo" oA oB none (by decide)⟩

/-- Claim C6: `get_info` on a name absent from the entries raises the
not-registered lookup error and leaves the registry state unchanged. -/
theorem C6_get_info_unregistered (r : Registry) (n : String)
    (h : r.contains n = false) :
    r.get_info n = (r, Except.error (Err.notRegistered n)) := by
  simp [Registry.get_info, h]

/-- Witness for C6: `get_info "bar"` on `r0` (which only holds `"foo"`)
errors and changes nothing. -/
theorem C6_witness :
    r0.contains "bar" = false ∧
    r0.get_info "bar" = (r0, Except.error (Err.notRegistered "bar")) :=
  ⟨by decide, C6_get_info_unregistered r0 "bar" (by decide)⟩

/-- Claim C8: `unregister(n)` leaves the information mapping entirely
unchanged; in particular any metadata attached to `n` remains stored
(orphaned) after `n` is removed from the entries. -/
theorem C8_unregister_keeps_information (r : Registry) (n : String) :
    (r.unregister n).1.information = r.information ∧
    assocGet (r.unregister n).1.information n = assocGet r.information n := by
  unfold Registry.unregister
  by_cases h : r.contains n <;> simp [h]

/-- Claim C10: a successful `register_name(n, obj)` with `info` omitted
adds `n` to the entries only: it raises nothing and no key of the
information mapping is added, removed, or modified. -/
theorem C10_register_no_info_frame (r : Registry) (n : String) (o : Obj)
    (h : r.contains n = false) :
    (r.register_name n o none).2 = none ∧
    (r.register_name n o none).1.information = r.information ∧
    (r.register_name n o none).1.entries = assocSet r.entries n o := by
  simp [Registry.register_name, h]

/-- Witness for C10: registering `"a"` in the empty registry touches only
the entries. -/
theorem C10_witness :
    Registry.empty.contains "a" = false ∧
    ((Registry.empty.register_name "a" oA none).2 = none ∧
     (Registry.empty.register_name "a" oA none).1.information
       = Registry.empty.information ∧
     (Registry.empty.register_name "a" oA none).1.entries
       = assocSet Registry.empty.entries "a" oA) :=
  ⟨by decide, C10_register_no_info_frame Registry.empty "a" oA (by decide)⟩

/-- Claim C3: applying `register_with_info(k=v)` to an object is the same
state transformation as `register(obj, info={k: v})` (the returned partial
just forwards to `register` with the keyword dict bound); both store the
object under its derived name and make `get_info` of that name return
`{k: v}`. -/
theorem C3_register_with_info_equiv (r : Registry) (o : Obj)
    (k : String) (v : PyVal)
    (h : r.contains (derivedName o) = false) :
    Registry.register_with_info [(k, v)] o r
      = r.register o (some (InfoArg.dict [(k, v)])) ∧
    (Registry.register_with_info [(k, v)] o r).2 = Except.ok o ∧
    assocGet (Registry.register_with_info [(k, v)] o r).1.entries
      (derivedName o) = some o ∧
    ((Registry.register_with_info [(k, v)] o r).1.get_info
      (derivedName o)).2 = Except.ok [(k, v)] := by
  refine ⟨rfl, ?_, ?_, ?_⟩
  · simp [Registry.register_with_info, Registry.register,
      Registry.register_name, h]
  · simp [Registry.register_with_info, Registry.register,
      Registry.register_name, h, assocGet_assocSet_self]
  · have h' : assocHas r.entries (derivedName o) = false := h
    simp [Registry.register_with_info, Registry.register,
      Registry.register_name, Registry.get_info, Registry.contains, h',
      assocHas_assocSet_self, assocGet_assocSet_self]

/-- Witness for C3: decorating `oNamed` with `priority=1` on the empty
registry equals direct registration with that info dict, stores the object
under `"f"`, and `get_info "f"` yields the dict. -/
theorem C3_witness :
    Registry.empty.contains (derivedName oNamed) = false ∧
    (Registry.register_with_info [("priority", PyVal.int 1)] oNamed
        Registry.empty
      = Registry.empty.register oNamed
          (some (InfoArg.dict [("priority", PyVal.int 1)])) ∧
     (Registry.register_with_info [("priority", PyVal.int 1)] oNamed
        Registry.empty).2 = Except.ok oNamed ∧
     assocGet (Registry.register_with_info [("priority", PyVal.int 1)]
        oNamed Registry.empty).1.entries (derivedName oNamed) = some oNamed ∧
     ((Registry.register_with_info [("priority", PyVal.int 1)] oNamed
        Registry.empty).1.get_info (derivedName oNamed)).2
       = Except.ok [("priority", PyVal.int 1)]) :=
  ⟨by decide,
   C3_register_with_info_equiv Registry.empty oNamed "priority"
     (PyVal.int 1) (by decide)⟩

/-- Claim C4: `get_info` on a registered name with no metadata returns the
empty mapping and stores it in the information mapping; a repeated call
returns that same stored mapping and changes nothing further; and because
the returned mapping is the stored one, mutating it (modelled as updating
the stored entry to `d`) is what a later `get_info` returns. -/
theorem C4_get_info_default_persists (r : Registry) (n : String)
    (d : PyDict) (h1 : r.contains n = true)
    (h2 : assocGet r.information n = none) :
    (r.get_info n).2 = Except.ok [] ∧
    assocGet (r.get_info n).1.information n = some [] ∧
    (r.get_info n).1.get_info n = ((r.get_info n).1, Except.ok []) ∧
    (Registry.get_info
      { (r.get_info n).1 with
          information := assocSet (r.get_info n).1.information n d } n).2
      = Except.ok d := by
  have h1' : assocHas r.entries n = true := h1
  refine ⟨?_, ?_, ?_, ?_⟩
  · simp [Registry.get_info, h1, h2]
  · simp [Registry.get_info, h1, h2, assocGet_assocSet_self]
  · simp [Registry.get_info, Registry.contains, h1', h2,
      assocGet_assocSet_self]
  · simp [Registry.get_info, Registry.contains, h1', h2,
      assocGet_assocSet_self]

/-- Witness for C4: on `r0`, which holds `"foo"` with no metadata,
`get_info "foo"` returns `{}`, stores it, repeats identically, and reflects
the mutation `{"x": 1}`. -/
theorem C4_witness :
    r0.contains "foo" = true ∧
    assocGet r0.information "foo" = none ∧
    ((r0.get_info "foo").2 = Except.ok [] ∧
     assocGet (r0.get_info "foo").1.information "foo" = some [] ∧
     (r0.get_info "foo").1.get_info "foo"
       = ((r0.get_info "foo").1, Except.ok []) ∧
     (Registry.get_info
       { (r0.get_info "foo").1 with
           information := assocSet (r0.get_info "foo").1.information "foo"
             [("x", PyVal.int 1)] } "foo").2
       = Except.ok [("x", PyVal.int 1)]) :=
  ⟨by decide, by decide,
   C4_get_info_default_persists r0 "foo" [("x", PyVal.int 1)]
     (by decide) (by decide)⟩

/-- Claim C5 counterexample: registering the fresh name `"a"` with a
non-dict info value raises the assertion error, yet the entries are NOT
left unchanged — the object is already stored under `"a"` when the
assertion fires, so the failing call is not atomic as claimed. -/
theorem C5_counterexample :
    (Registry.empty.register_name "a" oA
      (some (InfoArg.nonDict (PyVal.int 0)))).2 = some Err.assertionError ∧
    (Registry.empty.register_name "a" oA
      (some (InfoArg.nonDict (PyVal.int 0)))).1.entries
      ≠ Registry.empty.entries ∧
    assocGet (Registry.empty.register_name "a" oA
      (some (InfoArg.nonDict (PyVal.int 0)))).1.entries "a" = some oA := by
  decide

/-- Claim C5 amended: `register_name(n, obj, info)` on a fresh `n` with a
non-dict `info` fails with the assertion (`TypeError`-kind) error and
leaves the information mapping unchanged, but it is not atomic: `obj` has
already been stored under `n` in the entries by the time the type check
fails, and it stays there. -/
theorem C5_amended_bad_info (r : Registry) (n : String) (o : Obj)
    (v : PyVal) (h : r.contains n = false) :
    r.register_name n o (some (InfoArg.nonDict v)) =
      ({ r with entries := assocSet r.entries n o },
       some Err.assertionError) := by
  simp [Registry.register_name, h]

/-- Witness for the amended C5 at the concrete failing input. -/
theorem C5_amended_witness :
    Registry.empty.contains "a" = false ∧
    Registry.empty.register_name "a" oA
        (some (InfoArg.nonDict (PyVal.int 0))) =
      ({ Registry.empty with
          entries := assocSet Registry.empty.entries "a" oA },
       some Err.assertionError) :=
  ⟨by decide,
   C5_amended_bad_info Registry.empty "a" oA (PyVal.int 0) (by decide)⟩

/-- Claim C7: `unregister(n)` never raises: it removes `n` from the entries
when present and is a no-op when absent; the immediately repeated
`unregister(n)` is then a no-op and does not raise either. -/
theorem C7_unregister_total (r : Registry) (n : String) :
    (r.unregister n).2 = none ∧
    (r.contains n = true → (r.unregister n).1.entries = assocDel r.entries n) ∧
    (r.contains n = false → (r.unregister n).1 = r) ∧
    (r.unregister n).1.unregister n = ((r.unregister n).1, none) := by
  by_cases h : r.contains n
  · have h2 : Registry.contains
        { r with entries := assocDel r.entries n } n = false := by
      unfold Registry.contains
      exact assocHas_assocDel_self r.entries n
    simp [Registry.unregister, h, h2]
  · simp [Registry.unregister, h]

/-- Witness for C7 on `r0` and the present name `"foo"`. -/
theorem C7_witness :
    (r0.unregister "foo").2 = none ∧
    (r0.contains "foo" = true →
      (r0.unregister "foo").1.entries = assocDel r0.entries "foo") ∧
    (r0.contains "foo" = false → (r0.unregister "foo").1 = r0) ∧
    (r0.unregister "foo").1.unregister "foo"
      = ((r0.unregister "foo").1, none) :=
  C7_unregister_total r0 "foo"

/-- Claim C9 (implicit): two distinct instances of the same class, both
lacking a `__name__` attribute, derive the same registration key — the
class name — so registering the first succeeds and registering the second
raises the name-collision error and leaves the registry unchanged. -/
theorem C9_same_class_collide (r : Registry) (o1 o2 : Obj)
    (h1 : o1.declaredName = none) (h2 : o2.declaredName = none)
    (h3 : o1.className = o2.className) (_hne : o1 ≠ o2)
    (h : r.contains (derivedName o1) = false) :
    (r.register o1 none).2 = Except.ok o1 ∧
    ((r.register o1 none).1.register o2 none).2
      = Except.error (Err.nameCollision (derivedName o2)) ∧
    ((r.register o1 none).1.register o2 none).1 = (r.register o1 none).1 := by
  have hn1 : derivedName o1 = o1.className := by simp [derivedName, h1]
  have hn2 : derivedName o2 = o1.className := by simp [derivedName, h2, ← h3]
  rw [hn1] at h
  have hstep : r.register o1 none =
      ({ r with entries := assocSet r.entries o1.className o1 },
       Except.ok o1) := by
    simp [Registry.register, Registry.register_name, hn1, h]
  have hc2 : Registry.contains
      { r with entries := assocSet r.entries o1.className o1 }
      (derivedName o2) = true := by
    unfold Registry.contains
    rw [hn2]
    exact assocHas_assocSet_self r.entries o1.className o1
  refine ⟨by rw [hstep], ?_, ?_⟩
  · rw [hstep]
    simp [Registry.register, Registry.register_name, hc2]
  · rw [hstep]
    simp [Registry.register, Registry.register_name, hc2]

/-- Witness for C9: `oA` and `oB` are distinct instances of class `"Cls"`;
on the empty registry the first registration succeeds and the second
collides. -/
theorem C9_witness :
    oA.declaredName = none ∧ oB.declaredName = none ∧
    oA.className = oB.className ∧ oA ≠ oB ∧
    Registry.empty.contains (derivedName oA) = false ∧
    ((Registry.empty.register oA none).2 = Except.ok oA ∧
     ((Registry.empty.register oA none).1.register oB none).2
       = Except.error (Err.nameCollision (derivedName oB)) ∧
     ((Registry.empty.register oA none).1.register oB none).1
       = (Registry.empty.register oA none).1) :=
  ⟨by decide, by decide, by decide, by decide, by decide,
   C9_same_class_collide Registry.empty oA oB (by decide) (by decide)
     (by decide) (by decide) (by decide)⟩

end Nevergrad
